import Mathlib

/-!
Verification of the allocator bridge in src/stb_truetype_wrapper.c.

The source file defines two preprocessor hooks before including the wrapped
font library:

  #define STBTT_malloc(x,u)  zig_stb_alloc(x)
  #define STBTT_free(x,u)    zig_stb_free(x)

with `zig_stb_alloc` / `zig_stb_free` declared extern (implemented in Zig,
outside this file) and resolved there through an ambient, thread-local
allocator binding.  We embed the bridge shallowly: memory references are
`Option Nat` (`none` is the null failure sentinel), an allocator is a pair of
state-passing operations over an abstract state type, and the two hooks are
the literal forwarding functions of lines 14 and 15 of the source.
-/

/-- An ambient allocator binding: the caller-owned allocator interface the
spec calls `AllocatorHandle`.  `alloc` takes a size and returns a memory
reference (`none` is the failure sentinel) together with the new allocator
state; `free` takes a possibly-null reference and returns the new state. -/
structure Allocator (σ : Type) where
  alloc : Nat → σ → Option Nat × σ
  free : Option Nat → σ → σ

/-- Modelled from the spec: `zig_stb_alloc` (declared extern at line 8 of
src/stb_truetype_wrapper.c, implemented in Zig outside src/) "forwards to the
ambient allocator's allocate operation with the given size; returns whatever
the allocator returns, including a failure sentinel (null) on out-of-memory".
The ambient (thread-local) binding is the explicit parameter `A`. -/
def zig_stb_alloc {σ : Type} (A : Allocator σ) (size : Nat) (st : σ) :
    Option Nat × σ :=
  A.alloc size st

/-- Modelled from the spec: `zig_stb_free` (declared extern at line 9 of
src/stb_truetype_wrapper.c, implemented in Zig outside src/) "forwards to the
ambient allocator's free operation", tolerant of a null reference. -/
def zig_stb_free {σ : Type} (A : Allocator σ) (ptr : Option Nat) (st : σ) :
    σ :=
  A.free ptr st

/-- Line 14 of the source: `#define STBTT_malloc(x,u) zig_stb_alloc(x)`.
The user-context argument `u` is discarded; the size `x` is forwarded
unchanged to `zig_stb_alloc`. -/
def STBTT_malloc {σ υ : Type} (A : Allocator σ) (x : Nat) (u : υ) (st : σ) :
    Option Nat × σ :=
  zig_stb_alloc A x st

/-- Line 15 of the source: `#define STBTT_free(x,u) zig_stb_free(x)`.
The user-context argument `u` is discarded; the reference `x` is forwarded
unchanged to `zig_stb_free`. -/
def STBTT_free {σ υ : Type} (A : Allocator σ) (x : Option Nat) (u : υ)
    (st : σ) : σ :=
  zig_stb_free A x st

/-- Modelled from the spec: the concrete test allocator of spec section 8,
"ambient allocator configured with a byte budget" that reports
outstanding-allocation accounting.  `live` records the outstanding regions as
(reference, size) pairs, `next` is the next fresh reference. -/
structure BudgetState where
  budget : Nat
  live : List (Nat × Nat)
  next : Nat
deriving DecidableEq

/-- The allocator-reported outstanding-byte count: total size of live
regions. -/
def usedBytes (st : BudgetState) : Nat :=
  (st.live.map Prod.snd).sum

/-- Modelled from the spec: the budget allocator's allocate operation.  If
the request fits in the remaining budget it returns a fresh non-null
reference to a region of exactly the requested size; otherwise it returns
the failure sentinel and leaves the accounting unchanged. -/
def budgetAlloc (size : Nat) (st : BudgetState) : Option Nat × BudgetState :=
  if usedBytes st + size ≤ st.budget then
    (some st.next, ⟨st.budget, (st.next, size) :: st.live, st.next + 1⟩)
  else
    (none, st)

/-- Modelled from the spec: the budget allocator's free operation.  A null
reference is a no-op; a non-null reference releases the matching live
region. -/
def budgetFree (ptr : Option Nat) (st : BudgetState) : BudgetState :=
  match ptr with
  | none => st
  | some p => ⟨st.budget, st.live.eraseP (fun e => e.1 == p), st.next⟩

/-- Modelled from the spec: the budget allocator packaged as an ambient
allocator binding. -/
def budgetAllocator : Allocator BudgetState :=
  ⟨budgetAlloc, budgetFree⟩

/-- The size of the region a reference points to in a given budget-allocator
state (0 if the reference is not live). -/
def regionSize (st : BudgetState) (p : Nat) : Nat :=
  ((st.live.find? (fun e => e.1 == p)).map Prod.snd).getD 0

/-- A fresh budget-allocator state with the 1,024-byte budget of the spec's
scenario. -/
def st1024 : BudgetState :=
  ⟨1024, [], 0⟩

/-- One inbound hook call from the wrapped library: either an allocate with a
size or a free with a reference, each carrying the opaque user-context value
the library supplies. -/
inductive HookCall (υ : Type) where
  | alloc (size : Nat) (u : υ)
  | free (ptr : Option Nat) (u : υ)

/-- The state effect of one hook call routed through the bridge macros. -/
def hookStep {σ υ : Type} (A : Allocator σ) (c : HookCall υ) (st : σ) : σ :=
  match c with
  | HookCall.alloc s u => (STBTT_malloc A s u st).2
  | HookCall.free p u => STBTT_free A p u st

/-- Run a sequence of hook calls through the bridge.  The only state threaded
between calls is the ambient allocator's own state: the bridge has no state
component of its own. -/
def runHooks {σ υ : Type} (A : Allocator σ) : List (HookCall υ) → σ → σ
  | [], st => st
  | c :: rest, st => runHooks A rest (hookStep A c st)

/-- Run the same sequence of calls directly against the ambient allocator,
bypassing the bridge entirely. -/
def runDirect {σ υ : Type} (A : Allocator σ) : List (HookCall υ) → σ → σ
  | [], st => st
  | HookCall.alloc s _ :: rest, st => runDirect A rest (A.alloc s st).2
  | HookCall.free p _ :: rest, st => runDirect A rest (A.free p st)

/-- Combined state of the two allocators reachable in principle from the
wrapped library: the ambient caller-chosen allocator and the platform default
allocator. -/
structure World (σ π : Type) where
  amb : σ
  plat : π

/-- From lines 14 and 18–19 of the source: the `STBTT_malloc` macro is
defined before `stb_truetype.h` is included, so the library's
`#ifndef STBTT_malloc` fallback to the platform default allocator is not
compiled in. -/
def stbttHooksDefined : Bool :=
  true

/-- Modelled from the spec: an allocation site inside the wrapped library
(`stb_truetype.h`, included at line 19, not under src/).  Per the stb hook
convention the site resolves to the user-defined `STBTT_malloc` macro when
one is defined before the implementation include, passing the fixed null
user context; only when no macro is defined does it fall back to the
platform default allocator `P`. -/
def libraryAllocSite {σ π : Type} (A : Allocator σ) (P : Allocator π)
    (size : Nat) (w : World σ π) : Option Nat × World σ π :=
  if stbttHooksDefined then
    let r := STBTT_malloc A size (none : Option Nat) w.amb
    (r.1, ⟨r.2, w.plat⟩)
  else
    let r := P.alloc size w.plat
    (r.1, ⟨w.amb, r.2⟩)

/-- Modelled from the spec: a release site inside the wrapped library,
resolving to `STBTT_free` when the macro is defined, else to the platform
default allocator. -/
def libraryFreeSite {σ π : Type} (A : Allocator σ) (P : Allocator π)
    (ptr : Option Nat) (w : World σ π) : World σ π :=
  if stbttHooksDefined then
    ⟨STBTT_free A ptr (none : Option Nat) w.amb, w.plat⟩
  else
    ⟨w.amb, P.free ptr w.plat⟩

/-- Claim C2: with the wrapper's macros in force, every dynamic-memory
request made by the wrapped library resolves to the caller-chosen allocator
(`zig_stb_alloc` for allocation, `zig_stb_free` for release) through the
fixed hook signature, and no allocation site touches the platform default
allocator: its state is left unchanged by both sites, whatever platform
allocator is installed. -/
theorem library_sites_use_caller_allocator {σ π : Type} (A : Allocator σ)
    (P : Allocator π) (size : Nat) (ptr : Option Nat) (w : World σ π) :
    (libraryAllocSite A P size w).1 = (zig_stb_alloc A size w.amb).1 ∧
    (libraryAllocSite A P size w).2.amb = (zig_stb_alloc A size w.amb).2 ∧
    (libraryAllocSite A P size w).2.plat = w.plat ∧
    (libraryFreeSite A P ptr w).amb = zig_stb_free A ptr w.amb ∧
    (libraryFreeSite A P ptr w).plat = w.plat :=
  ⟨rfl, rfl, rfl, rfl, rfl⟩

/-- Claim C3: calling the bridge's free hook with a null reference is a no-op
for every allocator state: the (modelled) ambient allocator state is left
entirely unchanged, so in particular the allocator-reported outstanding-byte
count is unchanged, and the call is a total function — it cannot crash. -/
theorem bridge_free_null_noop {υ : Type} (u : υ) (st : BudgetState) :
    STBTT_free budgetAllocator none u st = st ∧
    usedBytes (STBTT_free budgetAllocator none u st) = usedBytes st :=
  ⟨rfl, rfl⟩

/-- Claim C4: for every size `s` and allocator state, `allocate(s)` through
the bridge either returns a non-null reference (`some p`) to a region of at
least `s` bytes, or returns the failure sentinel `none` exactly when the
ambient allocator's budget is exhausted — in which case the accounting is
unchanged.  The hook is total: it never raises. -/
theorem bridge_alloc_sized_or_exhausted {υ : Type} (u : υ) (s : Nat)
    (st : BudgetState) :
    (∃ p : Nat, (STBTT_malloc budgetAllocator s u st).1 = some p ∧
      s ≤ regionSize (STBTT_malloc budgetAllocator s u st).2 p) ∨
    ((STBTT_malloc budgetAllocator s u st).1 = none ∧
      st.budget < usedBytes st + s ∧
      (STBTT_malloc budgetAllocator s u st).2 = st) := by
  show (∃ p : Nat, (budgetAlloc s st).1 = some p ∧
      s ≤ regionSize (budgetAlloc s st).2 p) ∨
    ((budgetAlloc s st).1 = none ∧ st.budget < usedBytes st + s ∧
      (budgetAlloc s st).2 = st)
  unfold budgetAlloc
  by_cases h : usedBytes st + s ≤ st.budget
  · left
    refine ⟨st.next, ?_, ?_⟩
    · simp [h]
    · simp [h, regionSize, List.find?]
  · right
    simp [h]
    omega

/-- Claim C1: for every size `s`, the bridge's allocate hook forwards `s` to
the ambient allocator's allocate operation and returns the allocator's result
verbatim — including the null failure sentinel `none` on out-of-memory.  The
hook is a total function that computes nothing but this single forwarded
call: it never raises, never retries, and never wraps or translates the
failure. -/
theorem bridge_alloc_forwards_verbatim {σ υ : Type} (A : Allocator σ)
    (s : Nat) (u : υ) (st : σ) :
    STBTT_malloc A s u st = zig_stb_alloc A s st ∧
    zig_stb_alloc A s st = A.alloc s st ∧
    ((A.alloc s st).1 = none → (STBTT_malloc A s u st).1 = none) :=
  ⟨rfl, rfl, fun h => h⟩

theorem bridge_alloc_forwards_verbatim_witness :
    STBTT_malloc budgetAllocator 1 (none : Option Nat) ⟨0, [], 0⟩ =
      zig_stb_alloc budgetAllocator 1 ⟨0, [], 0⟩ ∧
    (STBTT_malloc budgetAllocator 1 (none : Option Nat) ⟨0, [], 0⟩).1 =
      none :=
  ⟨(bridge_alloc_forwards_verbatim budgetAllocator 1 none ⟨0, [], 0⟩).1,
   (bridge_alloc_forwards_verbatim budgetAllocator 1 none ⟨0, [], 0⟩).2.2
     (by decide)⟩

/-- Claim C7: on every hook call, both allocate and free, the bridge discards
the secondary user-context argument: the result of each call is the same for
any two context values, and depends only on the size or pointer argument and
the ambient allocator binding. -/
theorem bridge_discards_context {σ υ : Type} (A : Allocator σ) (x : Nat)
    (p : Option Nat) (u₁ u₂ : υ) (st : σ) :
    STBTT_malloc A x u₁ st = STBTT_malloc A x u₂ st ∧
    STBTT_free A p u₁ st = STBTT_free A p u₂ st ∧
    STBTT_malloc A x u₁ st = A.alloc x st ∧
    STBTT_free A p u₁ st = A.free p st :=
  ⟨rfl, rfl, rfl, rfl⟩

/-- Claim C8: the bridge is stateless.  Running any sequence of allocate/free
hook calls through the bridge is identical to running the same sequence
directly against the ambient allocator: no bridge-owned state exists, none is
changed by any call sequence, and each individual call's behaviour is
determined solely by its arguments and the ambient allocator. -/
theorem bridge_stateless {σ υ : Type} (A : Allocator σ)
    (cs : List (HookCall υ)) (st : σ) :
    runHooks A cs st = runDirect A cs st ∧
    (∀ (x : Nat) (u : υ), STBTT_malloc A x u st = A.alloc x st) ∧
    (∀ (p : Option Nat) (u : υ), STBTT_free A p u st = A.free p st) := by
  refine ⟨?_, fun x u => rfl, fun p u => rfl⟩
  induction cs generalizing st with
  | nil => rfl
  | cons c rest ih =>
    cases c with
    | alloc s u => exact ih _
    | free p u => exact ih _

/-- Claim C5: if `allocate(s)` through the bridge succeeds with reference
`p`, then calling the bridge's free hook on `p` exactly once restores the
ambient allocator's outstanding-byte count to its value before the allocate
call. -/
theorem bridge_alloc_free_roundtrip {υ : Type} (u v : υ) (s : Nat)
    (st : BudgetState) (p : Nat)
    (h : (STBTT_malloc budgetAllocator s u st).1 = some p) :
    usedBytes (STBTT_free budgetAllocator (some p) v
      (STBTT_malloc budgetAllocator s u st).2) = usedBytes st := by
  have h₂ : (budgetAlloc s st).1 = some p := h
  show usedBytes (budgetFree (some p) (budgetAlloc s st).2) = usedBytes st
  unfold budgetAlloc at h₂ ⊢
  by_cases hb : usedBytes st + s ≤ st.budget
  · simp [hb] at h₂ ⊢
    subst h₂
    simp [budgetFree, List.eraseP_cons, usedBytes]
  · simp [hb] at h₂

theorem bridge_alloc_free_roundtrip_witness :
    (STBTT_malloc budgetAllocator 600 (none : Option Nat) st1024).1 =
      some 0 ∧
    usedBytes (STBTT_free budgetAllocator (some 0) (none : Option Nat)
      (STBTT_malloc budgetAllocator 600 (none : Option Nat) st1024).2) =
      usedBytes st1024 :=
  ⟨by decide,
   bridge_alloc_free_roundtrip none none 600 st1024 0 (by decide)⟩

/-- First scenario step: `allocate(600)` on a fresh 1,024-byte-budget
allocator. -/
def scenStep1 : Option Nat × BudgetState :=
  STBTT_malloc budgetAllocator 600 (none : Option Nat) st1024

/-- Second scenario step: a second `allocate(600)`. -/
def scenStep2 : Option Nat × BudgetState :=
  STBTT_malloc budgetAllocator 600 (none : Option Nat) scenStep1.2

/-- Third scenario step: free of the first result. -/
def scenStep3 : BudgetState :=
  STBTT_free budgetAllocator scenStep1.1 (none : Option Nat) scenStep2.2

/-- Fourth scenario step: a third `allocate(600)`. -/
def scenStep4 : Option Nat × BudgetState :=
  STBTT_malloc budgetAllocator 600 (none : Option Nat) scenStep3

/-- Claim C6: with a 1,024-byte budget, `allocate(600)` succeeds leaving 600
bytes used; a second `allocate(600)` fails with the sentinel and leaves the
accounting (indeed the whole allocator state) unchanged at 600 bytes used;
freeing the first result releases it; a third `allocate(600)` then succeeds
with the budget back at 600 bytes used. -/
theorem budget_scenario :
    (∃ p : Nat, scenStep1.1 = some p) ∧ usedBytes scenStep1.2 = 600 ∧
    scenStep2.1 = none ∧ scenStep2.2 = scenStep1.2 ∧
    usedBytes scenStep2.2 = 600 ∧ usedBytes scenStep3 = 0 ∧
    (∃ q : Nat, scenStep4.1 = some q) ∧ usedBytes scenStep4.2 = 600 :=
  ⟨⟨0, by decide⟩, by decide, by decide, by decide, by decide, by decide,
   ⟨1, by decide⟩, by decide⟩

/-- Run an interleaved schedule of hook calls from two threads, each bound to
its own ambient allocator: `false`-tagged calls run against binding `A₁`,
`true`-tagged calls against binding `A₂`. -/
def runTagged {σ₁ σ₂ υ : Type} (A₁ : Allocator σ₁) (A₂ : Allocator σ₂) :
    List (Bool × HookCall υ) → σ₁ × σ₂ → σ₁ × σ₂
  | [], st => st
  | (false, c) :: rest, st =>
    runTagged A₁ A₂ rest (hookStep A₁ c st.1, st.2)
  | (true, c) :: rest, st =>
    runTagged A₁ A₂ rest (st.1, hookStep A₂ c st.2)

/-- The calls of one thread, extracted from an interleaved schedule. -/
def threadCalls {υ : Type} (t : Bool) :
    List (Bool × HookCall υ) → List (HookCall υ)
  | [] => []
  | (t₂, c) :: rest =>
    if t₂ == t then c :: threadCalls t rest else threadCalls t rest

theorem runTagged_isolates {σ₁ σ₂ υ : Type} (A₁ : Allocator σ₁)
    (A₂ : Allocator σ₂) (sched : List (Bool × HookCall υ)) (st₁ : σ₁)
    (st₂ : σ₂) :
    runTagged A₁ A₂ sched (st₁, st₂) =
      (runHooks A₁ (threadCalls false sched) st₁,
       runHooks A₂ (threadCalls true sched) st₂) := by
  induction sched generalizing st₁ st₂ with
  | nil => rfl
  | cons tc rest ih =>
    obtain ⟨t, c⟩ := tc
    cases t with
    | false =>
      simpa [runTagged, threadCalls, runHooks] using
        ih (hookStep A₁ c st₁) st₂
    | true =>
      simpa [runTagged, threadCalls, runHooks] using
        ih st₁ (hookStep A₂ c st₂)

/-- One thread's workload: `k` alternating allocate/free cycles (allocate 8
bytes, then free the reference the budget allocator hands out), starting from
fresh-reference counter `i`. -/
def cycleCalls : Nat → Nat → List (HookCall Unit)
  | _, 0 => []
  | i, k + 1 =>
    HookCall.alloc 8 () :: HookCall.free (some i) () :: cycleCalls (i + 1) k

/-- A perfectly alternating two-thread schedule of `k` allocate/free cycles
per thread. -/
def altSched : Nat → Nat → List (Bool × HookCall Unit)
  | _, 0 => []
  | i, k + 1 =>
    (false, HookCall.alloc 8 ()) :: (true, HookCall.alloc 8 ()) ::
    (false, HookCall.free (some i) ()) :: (true, HookCall.free (some i) ()) ::
    altSched (i + 1) k

theorem threadCalls_altSched (k i : Nat) :
    threadCalls false (altSched i k) = cycleCalls i k ∧
    threadCalls true (altSched i k) = cycleCalls i k := by
  induction k generalizing i with
  | zero => exact ⟨rfl, rfl⟩
  | succ k ih =>
    simp [altSched, threadCalls, cycleCalls, (ih (i + 1)).1, (ih (i + 1)).2]

/-- Claim C9: hook-call sequences performed against distinct thread-local
allocator bindings are isolated.  First conjunct: for every interleaved
schedule over two bindings, the final per-binding state is exactly what each
thread's call sequence produces running alone — no cross-binding
interference.  Second conjunct: in particular, two threads each running
1,000 alternating allocate/free cycles on independent budget-allocator
bindings produce the same per-binding accounting as each sequence running
alone. -/
theorem distinct_bindings_isolated :
    (∀ (σ₁ σ₂ υ : Type) (A₁ : Allocator σ₁) (A₂ : Allocator σ₂)
      (sched : List (Bool × HookCall υ)) (st₁ : σ₁) (st₂ : σ₂),
      runTagged A₁ A₂ sched (st₁, st₂) =
        (runHooks A₁ (threadCalls false sched) st₁,
         runHooks A₂ (threadCalls true sched) st₂)) ∧
    (∀ st₁ st₂ : BudgetState,
      runTagged budgetAllocator budgetAllocator (altSched 0 1000) (st₁, st₂) =
        (runHooks budgetAllocator (cycleCalls 0 1000) st₁,
         runHooks budgetAllocator (cycleCalls 0 1000) st₂)) := by
  refine ⟨fun σ₁ σ₂ υ A₁ A₂ sched st₁ st₂ =>
    runTagged_isolates A₁ A₂ sched st₁ st₂, fun st₁ st₂ => ?_⟩
  rw [runTagged_isolates, (threadCalls_altSched 1000 0).1,
    (threadCalls_altSched 1000 0).2]

/-- Claim C10: the bridge applies no zero-size policy of its own.  For every
size, including zero, the allocate hook passes the size argument unchanged to
`zig_stb_alloc` — no rounding, no minimum, no special-casing of size 0 — so
the zero-size behaviour seen by the wrapped library is exactly the external
allocator's. -/
theorem bridge_no_zero_size_policy {σ υ : Type} (A : Allocator σ) (u : υ)
    (st : σ) :
    (∀ s : Nat, STBTT_malloc A s u st = zig_stb_alloc A s st) ∧
    STBTT_malloc A 0 u st = zig_stb_alloc A 0 st ∧
    STBTT_malloc A 0 u st = A.alloc 0 st :=
  ⟨fun _ => rfl, rfl, rfl⟩
